import Mathlib

set_option maxRecDepth 100000

/-!
Shallow embedding of the seqrs core: alphabets (`DNA4`, `DNA`, `AA`, `CodonTag`),
the generic `Codon` triple with its rank/cardinality/variants functions, the
genetic-code lookup tables, the `TryFrom<&DNA> for DNA4` narrowing, and the
codon-chunking iterator, together with theorems settling the specification
claims about them.
-/

namespace Seqrs

/-- The concrete non-redundant DNA alphabet (`enum DNA4` in `alphabet/dna4.rs`),
discriminants 0b00..0b11 in declaration order. -/
inductive DNA4
  | A
  | C
  | G
  | T
  deriving DecidableEq, Repr

/-- Enum discriminants of `DNA4` (`A = 0b00, C = 0b01, G = 0b10, T = 0b11`). -/
def DNA4.discr : DNA4 → Nat
  | .A => 0b00
  | .C => 0b01
  | .G => 0b10
  | .T => 0b11

/-- `DNA4::variants()` from `alphabet/dna4.rs`. -/
def DNA4.variants : List DNA4 := [.A, .C, .G, .T]

/-- `DNA4::cardinality()` from `alphabet/dna4.rs`. -/
def DNA4.cardinality : Nat := 4

/-- Modelled from the spec: the source declares `trait Alphabet` with a `rank()`
method and calls it on `DNA4` through `Codon::rank` and the translation-table
lookups, but the `impl Alphabet for DNA4` itself is absent from the source tree.
The spec fixes the symbol ranks of the concrete 4-symbol alphabet as the dense
enum discriminants 0..3. -/
def DNA4.rank (b : DNA4) : Nat := b.discr

instance : Fintype DNA4 :=
  Fintype.ofList [.A, .C, .G, .T] (fun x => by cases x <;> decide)

/-- The 15-symbol IUPAC nucleotide alphabet, constructors in source declaration order
(`alphabet! { pub enum DNA }` in `alphabet/dna.rs`). -/
inductive DNA
  | A
  | C
  | M
  | G
  | R
  | S
  | V
  | T
  | W
  | Y
  | H
  | K
  | D
  | B
  | N
  deriving DecidableEq, Repr

/-- Enum discriminants of `DNA`: the `bits:` field of each variant, a 4-bit membership
mask over the concrete bases (bit0 = A, bit1 = C, bit2 = G, bit3 = T). -/
def DNA.bits : DNA → Nat
  | .A => 0b0001
  | .C => 0b0010
  | .M => 0b0011
  | .G => 0b0100
  | .R => 0b0101
  | .S => 0b0110
  | .V => 0b0111
  | .T => 0b1000
  | .W => 0b1001
  | .Y => 0b1010
  | .H => 0b1011
  | .K => 0b1100
  | .D => 0b1101
  | .B => 0b1110
  | .N => 0b1111

/-- The `chr:` field of each `DNA` variant (display character). -/
def DNA.toChar : DNA → Char
  | .A => 'A'
  | .C => 'C'
  | .M => 'M'
  | .G => 'G'
  | .R => 'R'
  | .S => 'S'
  | .V => 'V'
  | .T => 'T'
  | .W => 'W'
  | .Y => 'Y'
  | .H => 'H'
  | .K => 'K'
  | .D => 'D'
  | .B => 'B'
  | .N => 'N'

/-- The `compl:` field of each `DNA` variant, as expanded by the `alphabet!` macro
into the `Complement` impl. -/
def DNA.compl : DNA → DNA
  | .A => .T
  | .C => .G
  | .M => .K
  | .G => .C
  | .R => .Y
  | .S => .S
  | .V => .B
  | .T => .A
  | .W => .W
  | .Y => .R
  | .H => .D
  | .K => .M
  | .D => .H
  | .B => .V
  | .N => .N

/-- The `Match` impl the `alphabet!` macro expands from the `matches:` lists: one true
arm per `(v, v)` pair and per `(v, red)` pair with `red` in the list, else false. -/
def DNA.matches : DNA → DNA → Bool
  | .A, .A => true
  | .A, .M => true
  | .A, .R => true
  | .A, .V => true
  | .A, .W => true
  | .A, .H => true
  | .A, .D => true
  | .A, .N => true
  | .C, .C => true
  | .C, .M => true
  | .C, .S => true
  | .C, .V => true
  | .C, .Y => true
  | .C, .H => true
  | .C, .B => true
  | .C, .N => true
  | .M, .M => true
  | .M, .A => true
  | .M, .C => true
  | .M, .R => true
  | .M, .S => true
  | .M, .V => true
  | .M, .W => true
  | .M, .Y => true
  | .M, .H => true
  | .M, .D => true
  | .M, .B => true
  | .M, .N => true
  | .G, .G => true
  | .G, .R => true
  | .G, .S => true
  | .G, .V => true
  | .G, .K => true
  | .G, .D => true
  | .G, .B => true
  | .G, .N => true
  | .R, .R => true
  | .R, .A => true
  | .R, .M => true
  | .R, .G => true
  | .R, .S => true
  | .R, .V => true
  | .R, .W => true
  | .R, .H => true
  | .R, .K => true
  | .R, .D => true
  | .R, .B => true
  | .R, .N => true
  | .S, .S => true
  | .S, .C => true
  | .S, .M => true
  | .S, .G => true
  | .S, .R => true
  | .S, .V => true
  | .S, .Y => true
  | .S, .H => true
  | .S, .K => true
  | .S, .D => true
  | .S, .B => true
  | .S, .N => true
  | .V, .V => true
  | .V, .A => true
  | .V, .C => true
  | .V, .M => true
  | .V, .G => true
  | .V, .R => true
  | .V, .S => true
  | .V, .W => true
  | .V, .Y => true
  | .V, .H => true
  | .V, .K => true
  | .V, .D => true
  | .V, .B => true
  | .V, .N => true
  | .T, .T => true
  | .T, .W => true
  | .T, .Y => true
  | .T, .H => true
  | .T, .K => true
  | .T, .D => true
  | .T, .B => true
  | .T, .N => true
  | .W, .W => true
  | .W, .A => true
  | .W, .M => true
  | .W, .R => true
  | .W, .V => true
  | .W, .T => true
  | .W, .Y => true
  | .W, .H => true
  | .W, .K => true
  | .W, .D => true
  | .W, .B => true
  | .W, .N => true
  | .Y, .Y => true
  | .Y, .C => true
  | .Y, .M => true
  | .Y, .S => true
  | .Y, .V => true
  | .Y, .T => true
  | .Y, .W => true
  | .Y, .H => true
  | .Y, .K => true
  | .Y, .D => true
  | .Y, .B => true
  | .Y, .N => true
  | .H, .H => true
  | .H, .A => true
  | .H, .C => true
  | .H, .M => true
  | .H, .R => true
  | .H, .S => true
  | .H, .V => true
  | .H, .T => true
  | .H, .W => true
  | .H, .Y => true
  | .H, .K => true
  | .H, .D => true
  | .H, .B => true
  | .H, .N => true
  | .K, .K => true
  | .K, .G => true
  | .K, .R => true
  | .K, .S => true
  | .K, .V => true
  | .K, .T => true
  | .K, .W => true
  | .K, .Y => true
  | .K, .H => true
  | .K, .D => true
  | .K, .B => true
  | .K, .N => true
  | .D, .D => true
  | .D, .A => true
  | .D, .M => true
  | .D, .G => true
  | .D, .R => true
  | .D, .S => true
  | .D, .V => true
  | .D, .T => true
  | .D, .W => true
  | .D, .Y => true
  | .D, .H => true
  | .D, .K => true
  | .D, .B => true
  | .D, .N => true
  | .B, .B => true
  | .B, .C => true
  | .B, .M => true
  | .B, .G => true
  | .B, .R => true
  | .B, .S => true
  | .B, .V => true
  | .B, .T => true
  | .B, .W => true
  | .B, .Y => true
  | .B, .H => true
  | .B, .K => true
  | .B, .D => true
  | .B, .N => true
  | .N, .N => true
  | .N, .A => true
  | .N, .C => true
  | .N, .M => true
  | .N, .G => true
  | .N, .R => true
  | .N, .S => true
  | .N, .V => true
  | .N, .T => true
  | .N, .W => true
  | .N, .Y => true
  | .N, .H => true
  | .N, .K => true
  | .N, .D => true
  | .N, .B => true
  | _, _ => false

/-- `RedundantAlphabet::union` for `DNA`: verbatim transcription of the 225-entry match
table in `alphabet/dna.rs`. -/
def DNA.union : DNA → DNA → DNA
  | .A, .A => .A
  | .A, .C => .M
  | .A, .M => .M
  | .A, .G => .R
  | .A, .R => .R
  | .A, .S => .V
  | .A, .V => .V
  | .A, .T => .W
  | .A, .W => .W
  | .A, .Y => .H
  | .A, .H => .H
  | .A, .K => .D
  | .A, .D => .D
  | .A, .B => .N
  | .A, .N => .N
  | .C, .A => .M
  | .C, .C => .C
  | .C, .M => .M
  | .C, .G => .S
  | .C, .R => .V
  | .C, .S => .S
  | .C, .V => .V
  | .C, .T => .Y
  | .C, .W => .H
  | .C, .Y => .Y
  | .C, .H => .H
  | .C, .K => .B
  | .C, .D => .N
  | .C, .B => .B
  | .C, .N => .N
  | .M, .A => .M
  | .M, .C => .M
  | .M, .M => .M
  | .M, .G => .V
  | .M, .R => .V
  | .M, .S => .V
  | .M, .V => .V
  | .M, .T => .H
  | .M, .W => .H
  | .M, .Y => .H
  | .M, .H => .H
  | .M, .K => .N
  | .M, .D => .N
  | .M, .B => .N
  | .M, .N => .N
  | .G, .A => .R
  | .G, .C => .S
  | .G, .M => .V
  | .G, .G => .G
  | .G, .R => .R
  | .G, .S => .S
  | .G, .V => .V
  | .G, .T => .K
  | .G, .W => .D
  | .G, .Y => .B
  | .G, .H => .N
  | .G, .K => .K
  | .G, .D => .D
  | .G, .B => .B
  | .G, .N => .N
  | .R, .A => .R
  | .R, .C => .V
  | .R, .M => .V
  | .R, .G => .R
  | .R, .R => .R
  | .R, .S => .V
  | .R, .V => .V
  | .R, .T => .D
  | .R, .W => .D
  | .R, .Y => .N
  | .R, .H => .N
  | .R, .K => .D
  | .R, .D => .D
  | .R, .B => .N
  | .R, .N => .N
  | .S, .A => .V
  | .S, .C => .S
  | .S, .M => .V
  | .S, .G => .S
  | .S, .R => .V
  | .S, .S => .S
  | .S, .V => .V
  | .S, .T => .B
  | .S, .W => .N
  | .S, .Y => .B
  | .S, .H => .N
  | .S, .K => .B
  | .S, .D => .N
  | .S, .B => .B
  | .S, .N => .N
  | .V, .A => .V
  | .V, .C => .V
  | .V, .M => .V
  | .V, .G => .V
  | .V, .R => .V
  | .V, .S => .V
  | .V, .V => .V
  | .V, .T => .N
  | .V, .W => .N
  | .V, .Y => .N
  | .V, .H => .N
  | .V, .K => .N
  | .V, .D => .N
  | .V, .B => .N
  | .V, .N => .N
  | .T, .A => .W
  | .T, .C => .Y
  | .T, .M => .H
  | .T, .G => .K
  | .T, .R => .D
  | .T, .S => .B
  | .T, .V => .N
  | .T, .T => .T
  | .T, .W => .W
  | .T, .Y => .Y
  | .T, .H => .H
  | .T, .K => .K
  | .T, .D => .D
  | .T, .B => .B
  | .T, .N => .N
  | .W, .A => .W
  | .W, .C => .H
  | .W, .M => .H
  | .W, .G => .D
  | .W, .R => .D
  | .W, .S => .N
  | .W, .V => .N
  | .W, .T => .W
  | .W, .W => .W
  | .W, .Y => .H
  | .W, .H => .H
  | .W, .K => .D
  | .W, .D => .D
  | .W, .B => .N
  | .W, .N => .N
  | .Y, .A => .H
  | .Y, .C => .Y
  | .Y, .M => .H
  | .Y, .G => .B
  | .Y, .R => .N
  | .Y, .S => .B
  | .Y, .V => .N
  | .Y, .T => .Y
  | .Y, .W => .H
  | .Y, .Y => .Y
  | .Y, .H => .H
  | .Y, .K => .B
  | .Y, .D => .N
  | .Y, .B => .B
  | .Y, .N => .N
  | .H, .A => .H
  | .H, .C => .H
  | .H, .M => .H
  | .H, .G => .N
  | .H, .R => .N
  | .H, .S => .N
  | .H, .V => .N
  | .H, .T => .H
  | .H, .W => .H
  | .H, .Y => .H
  | .H, .H => .H
  | .H, .K => .N
  | .H, .D => .N
  | .H, .B => .N
  | .H, .N => .N
  | .K, .A => .D
  | .K, .C => .B
  | .K, .M => .N
  | .K, .G => .K
  | .K, .R => .D
  | .K, .S => .B
  | .K, .V => .N
  | .K, .T => .K
  | .K, .W => .D
  | .K, .Y => .B
  | .K, .H => .N
  | .K, .K => .K
  | .K, .D => .D
  | .K, .B => .B
  | .K, .N => .N
  | .D, .A => .D
  | .D, .C => .N
  | .D, .M => .N
  | .D, .G => .D
  | .D, .R => .D
  | .D, .S => .N
  | .D, .V => .N
  | .D, .T => .D
  | .D, .W => .D
  | .D, .Y => .N
  | .D, .H => .N
  | .D, .K => .D
  | .D, .D => .D
  | .D, .B => .N
  | .D, .N => .N
  | .B, .A => .N
  | .B, .C => .B
  | .B, .M => .N
  | .B, .G => .B
  | .B, .R => .N
  | .B, .S => .B
  | .B, .V => .N
  | .B, .T => .B
  | .B, .W => .N
  | .B, .Y => .B
  | .B, .H => .N
  | .B, .K => .B
  | .B, .D => .N
  | .B, .B => .B
  | .B, .N => .N
  | .N, _ => .N

/-- `RedundantAlphabet::intersection` for `DNA`: verbatim transcription of the match
table in `alphabet/dna.rs` (`None` when the symbols share no concrete base). -/
def DNA.intersection : DNA → DNA → Option DNA
  | .A, .A => some .A
  | .A, .C => none
  | .A, .M => some .A
  | .A, .G => none
  | .A, .R => some .A
  | .A, .S => none
  | .A, .V => some .A
  | .A, .T => none
  | .A, .W => some .A
  | .A, .Y => none
  | .A, .H => some .A
  | .A, .K => none
  | .A, .D => some .A
  | .A, .B => none
  | .A, .N => some .A
  | .C, .A => none
  | .C, .C => some .C
  | .C, .M => some .C
  | .C, .G => none
  | .C, .R => none
  | .C, .S => some .C
  | .C, .V => some .C
  | .C, .T => none
  | .C, .W => none
  | .C, .Y => some .C
  | .C, .H => some .C
  | .C, .K => none
  | .C, .D => none
  | .C, .B => some .C
  | .C, .N => some .C
  | .M, .A => some .A
  | .M, .C => some .C
  | .M, .M => some .M
  | .M, .G => none
  | .M, .R => some .A
  | .M, .S => some .C
  | .M, .V => some .M
  | .M, .T => none
  | .M, .W => some .A
  | .M, .Y => some .C
  | .M, .H => some .M
  | .M, .K => none
  | .M, .D => some .A
  | .M, .B => some .C
  | .M, .N => some .M
  | .G, .A => none
  | .G, .C => none
  | .G, .M => none
  | .G, .G => some .G
  | .G, .R => some .G
  | .G, .S => some .G
  | .G, .V => some .G
  | .G, .T => none
  | .G, .W => none
  | .G, .Y => none
  | .G, .H => none
  | .G, .K => some .G
  | .G, .D => some .G
  | .G, .B => some .G
  | .G, .N => some .G
  | .R, .A => some .A
  | .R, .C => none
  | .R, .M => some .A
  | .R, .G => some .G
  | .R, .R => some .R
  | .R, .S => some .G
  | .R, .V => some .R
  | .R, .T => none
  | .R, .W => some .A
  | .R, .Y => none
  | .R, .H => some .A
  | .R, .K => some .G
  | .R, .D => some .R
  | .R, .B => some .G
  | .R, .N => some .R
  | .S, .A => none
  | .S, .C => some .C
  | .S, .M => some .C
  | .S, .G => some .G
  | .S, .R => some .G
  | .S, .S => some .S
  | .S, .V => some .S
  | .S, .T => none
  | .S, .W => none
  | .S, .Y => some .C
  | .S, .H => some .C
  | .S, .K => some .G
  | .S, .D => some .G
  | .S, .B => some .S
  | .S, .N => some .S
  | .V, .A => some .A
  | .V, .C => some .C
  | .V, .M => some .M
  | .V, .G => some .G
  | .V, .R => some .R
  | .V, .S => some .S
  | .V, .V => some .V
  | .V, .T => none
  | .V, .W => some .A
  | .V, .Y => some .C
  | .V, .H => some .M
  | .V, .K => some .G
  | .V, .D => some .R
  | .V, .B => some .S
  | .V, .N => some .V
  | .T, .A => none
  | .T, .C => none
  | .T, .M => none
  | .T, .G => none
  | .T, .R => none
  | .T, .S => none
  | .T, .V => none
  | .T, .T => some .T
  | .T, .W => some .T
  | .T, .Y => some .T
  | .T, .H => some .T
  | .T, .K => some .T
  | .T, .D => some .T
  | .T, .B => some .T
  | .T, .N => some .T
  | .W, .A => some .A
  | .W, .C => none
  | .W, .M => some .A
  | .W, .G => none
  | .W, .R => some .A
  | .W, .S => none
  | .W, .V => some .A
  | .W, .T => some .T
  | .W, .W => some .W
  | .W, .Y => some .T
  | .W, .H => some .W
  | .W, .K => some .T
  | .W, .D => some .W
  | .W, .B => some .T
  | .W, .N => some .W
  | .Y, .A => none
  | .Y, .C => some .C
  | .Y, .M => some .C
  | .Y, .G => none
  | .Y, .R => none
  | .Y, .S => some .C
  | .Y, .V => some .C
  | .Y, .T => some .T
  | .Y, .W => some .T
  | .Y, .Y => some .Y
  | .Y, .H => some .Y
  | .Y, .K => some .T
  | .Y, .D => some .T
  | .Y, .B => some .Y
  | .Y, .N => some .Y
  | .H, .A => some .A
  | .H, .C => some .C
  | .H, .M => some .M
  | .H, .G => none
  | .H, .R => some .A
  | .H, .S => some .C
  | .H, .V => some .M
  | .H, .T => some .T
  | .H, .W => some .W
  | .H, .Y => some .Y
  | .H, .H => some .H
  | .H, .K => some .T
  | .H, .D => some .W
  | .H, .B => some .Y
  | .H, .N => some .H
  | .K, .A => none
  | .K, .C => none
  | .K, .M => none
  | .K, .G => some .G
  | .K, .R => some .G
  | .K, .S => some .G
  | .K, .V => some .G
  | .K, .T => some .T
  | .K, .W => some .T
  | .K, .Y => some .T
  | .K, .H => some .T
  | .K, .K => some .K
  | .K, .D => some .K
  | .K, .B => some .K
  | .K, .N => some .K
  | .D, .A => some .A
  | .D, .C => none
  | .D, .M => some .A
  | .D, .G => some .G
  | .D, .R => some .R
  | .D, .S => some .G
  | .D, .V => some .R
  | .D, .T => some .T
  | .D, .W => some .W
  | .D, .Y => some .T
  | .D, .H => some .W
  | .D, .K => some .K
  | .D, .D => some .D
  | .D, .B => some .K
  | .D, .N => some .D
  | .B, .A => none
  | .B, .C => some .C
  | .B, .M => some .C
  | .B, .G => some .G
  | .B, .R => some .G
  | .B, .S => some .S
  | .B, .V => some .S
  | .B, .T => some .T
  | .B, .W => some .T
  | .B, .Y => some .Y
  | .B, .H => some .Y
  | .B, .K => some .K
  | .B, .D => some .K
  | .B, .B => some .B
  | .B, .N => some .B
  | .N, b => some b

/-- `RedundantAlphabet::difference` for `DNA`: verbatim transcription of the 225-entry
match table in `alphabet/dna.rs`. -/
def DNA.difference : DNA → DNA → Option DNA
  | .A, .A => none
  | .A, .C => some .A
  | .A, .M => none
  | .A, .G => some .A
  | .A, .R => none
  | .A, .S => some .A
  | .A, .V => none
  | .A, .T => some .A
  | .A, .W => none
  | .A, .Y => some .A
  | .A, .H => none
  | .A, .K => some .A
  | .A, .D => none
  | .A, .B => some .A
  | .A, .N => none
  | .C, .A => some .C
  | .C, .C => none
  | .C, .M => none
  | .C, .G => some .C
  | .C, .R => some .C
  | .C, .S => none
  | .C, .V => none
  | .C, .T => some .C
  | .C, .W => some .C
  | .C, .Y => none
  | .C, .H => none
  | .C, .K => some .C
  | .C, .D => some .C
  | .C, .B => none
  | .C, .N => none
  | .M, .A => some .C
  | .M, .C => some .A
  | .M, .M => none
  | .M, .G => some .M
  | .M, .R => some .C
  | .M, .S => some .A
  | .M, .V => none
  | .M, .T => some .M
  | .M, .W => some .C
  | .M, .Y => some .A
  | .M, .H => none
  | .M, .K => some .M
  | .M, .D => some .C
  | .M, .B => some .A
  | .M, .N => none
  | .G, .A => some .G
  | .G, .C => some .G
  | .G, .M => some .G
  | .G, .G => none
  | .G, .R => none
  | .G, .S => none
  | .G, .V => none
  | .G, .T => some .G
  | .G, .W => some .G
  | .G, .Y => some .G
  | .G, .H => some .G
  | .G, .K => none
  | .G, .D => none
  | .G, .B => none
  | .G, .N => none
  | .R, .A => some .G
  | .R, .C => some .R
  | .R, .M => some .G
  | .R, .G => some .A
  | .R, .R => none
  | .R, .S => some .A
  | .R, .V => none
  | .R, .T => some .R
  | .R, .W => some .G
  | .R, .Y => some .R
  | .R, .H => some .G
  | .R, .K => some .A
  | .R, .D => none
  | .R, .B => some .A
  | .R, .N => none
  | .S, .A => some .S
  | .S, .C => some .G
  | .S, .M => some .G
  | .S, .G => some .C
  | .S, .R => some .C
  | .S, .S => none
  | .S, .V => none
  | .S, .T => some .S
  | .S, .W => some .S
  | .S, .Y => some .G
  | .S, .H => some .G
  | .S, .K => some .C
  | .S, .D => some .C
  | .S, .B => none
  | .S, .N => none
  | .V, .A => some .S
  | .V, .C => some .R
  | .V, .M => some .G
  | .V, .G => some .M
  | .V, .R => some .C
  | .V, .S => some .A
  | .V, .V => none
  | .V, .T => some .V
  | .V, .W => some .S
  | .V, .Y => some .R
  | .V, .H => some .G
  | .V, .K => some .M
  | .V, .D => some .C
  | .V, .B => some .A
  | .V, .N => none
  | .T, .A => some .T
  | .T, .C => some .T
  | .T, .M => some .T
  | .T, .G => some .T
  | .T, .R => some .T
  | .T, .S => some .T
  | .T, .V => some .T
  | .T, .T => none
  | .T, .W => none
  | .T, .Y => none
  | .T, .H => none
  | .T, .K => none
  | .T, .D => none
  | .T, .B => none
  | .T, .N => none
  | .W, .A => some .T
  | .W, .C => some .W
  | .W, .M => some .T
  | .W, .G => some .W
  | .W, .R => some .T
  | .W, .S => some .W
  | .W, .V => some .T
  | .W, .T => some .A
  | .W, .W => none
  | .W, .Y => some .A
  | .W, .H => none
  | .W, .K => some .A
  | .W, .D => none
  | .W, .B => some .A
  | .W, .N => none
  | .Y, .A => some .Y
  | .Y, .C => some .T
  | .Y, .M => some .T
  | .Y, .G => some .Y
  | .Y, .R => some .Y
  | .Y, .S => some .T
  | .Y, .V => some .T
  | .Y, .T => some .C
  | .Y, .W => some .C
  | .Y, .Y => none
  | .Y, .H => none
  | .Y, .K => some .C
  | .Y, .D => some .C
  | .Y, .B => none
  | .Y, .N => none
  | .H, .A => some .Y
  | .H, .C => some .W
  | .H, .M => some .T
  | .H, .G => some .H
  | .H, .R => some .Y
  | .H, .S => some .W
  | .H, .V => some .T
  | .H, .T => some .M
  | .H, .W => some .C
  | .H, .Y => some .A
  | .H, .H => none
  | .H, .K => some .M
  | .H, .D => some .C
  | .H, .B => some .A
  | .H, .N => none
  | .K, .A => some .K
  | .K, .C => some .K
  | .K, .M => some .K
  | .K, .G => some .T
  | .K, .R => some .T
  | .K, .S => some .T
  | .K, .V => some .T
  | .K, .T => some .G
  | .K, .W => some .G
  | .K, .Y => some .G
  | .K, .H => some .G
  | .K, .K => none
  | .K, .D => none
  | .K, .B => none
  | .K, .N => none
  | .D, .A => some .K
  | .D, .C => some .D
  | .D, .M => some .K
  | .D, .G => some .W
  | .D, .R => some .T
  | .D, .S => some .W
  | .D, .V => some .T
  | .D, .T => some .R
  | .D, .W => some .G
  | .D, .Y => some .R
  | .D, .H => some .G
  | .D, .K => some .A
  | .D, .D => none
  | .D, .B => some .A
  | .D, .N => none
  | .B, .A => some .B
  | .B, .C => some .K
  | .B, .M => some .K
  | .B, .G => some .Y
  | .B, .R => some .Y
  | .B, .S => some .T
  | .B, .V => some .T
  | .B, .T => some .S
  | .B, .W => some .S
  | .B, .Y => some .G
  | .B, .H => some .G
  | .B, .K => some .C
  | .B, .D => some .C
  | .B, .B => none
  | .B, .N => none
  | .N, .A => some .B
  | .N, .C => some .D
  | .N, .M => some .K
  | .N, .G => some .H
  | .N, .R => some .Y
  | .N, .S => some .W
  | .N, .V => some .T
  | .N, .T => some .V
  | .N, .W => some .S
  | .N, .Y => some .R
  | .N, .H => some .G
  | .N, .K => some .M
  | .N, .D => some .C
  | .N, .B => some .A
  | .N, .N => none

instance : Fintype DNA :=
  Fintype.ofList [.A, .C, .M, .G, .R, .S, .V, .T, .W, .Y, .H, .K, .D, .B, .N]
    (fun x => by cases x <;> decide)

/-- The amino-acid alphabet (`enum AA` in `alphabet/aa.rs`), 26 constructors in
declaration order. -/
inductive AA
  | A
  | B
  | C
  | D
  | E
  | F
  | G
  | H
  | I
  | J
  | K
  | L
  | M
  | N
  | O
  | P
  | Q
  | R
  | S
  | T
  | U
  | V
  | W
  | X
  | Y
  | Z
  deriving DecidableEq, Repr

/-- `Alphabet::rank` for `AA` (`*self as usize`: the enum discriminant, 0..25 in
declaration order). -/
def AA.rank : AA → Nat
  | .A => 0
  | .B => 1
  | .C => 2
  | .D => 3
  | .E => 4
  | .F => 5
  | .G => 6
  | .H => 7
  | .I => 8
  | .J => 9
  | .K => 10
  | .L => 11
  | .M => 12
  | .N => 13
  | .O => 14
  | .P => 15
  | .Q => 16
  | .R => 17
  | .S => 18
  | .T => 19
  | .U => 20
  | .V => 21
  | .W => 22
  | .X => 23
  | .Y => 24
  | .Z => 25

/-- `Alphabet::cardinality` for `AA`. -/
def AA.cardinality : Nat := 26

/-- `Alphabet::variants` for `AA` (declaration order). -/
def AA.variants : List AA := [.A, .B, .C, .D, .E, .F, .G, .H, .I, .J, .K, .L, .M, .N, .O, .P, .Q, .R, .S, .T, .U, .V, .W, .X, .Y, .Z]
instance : Fintype AA :=
  Fintype.ofList AA.variants (fun x => by cases x <;> decide)

/-- `RedundantAlphabet::union` for `AA` (`alphabet/aa.rs`): first the `a == b` guard arm,
then the listed sibling pairs, everything else falls back to `X`. -/
def AA.union (a b : AA) : AA :=
  if a = b then a
  else
    match a, b with
    | .N, .D => .B
    | .D, .N => .B
    | .L, .I => .J
    | .I, .L => .J
    | .Q, .E => .Z
    | .E, .Q => .Z
    | _, _ => .X

/-- `RedundantAlphabet::intersection` for `AA` (`alphabet/aa.rs`): `a == b` guard, the
`X`-absorption arms, the listed redundancy pairs, else `None`. -/
def AA.intersection (a b : AA) : Option AA :=
  if a = b then some a
  else
    match a, b with
    | .X, b => some b
    | a, .X => some a
    | .B, .D => some .D
    | .B, .N => some .N
    | .D, .B => some .D
    | .N, .B => some .N
    | .J, .I => some .I
    | .J, .L => some .L
    | .I, .J => some .I
    | .L, .J => some .L
    | .Z, .E => some .E
    | .Z, .Q => some .Q
    | .E, .Z => some .E
    | .Q, .Z => some .Q
    | _, _ => none

/-- `RedundantAlphabet::difference` for `AA` (`alphabet/aa.rs`): `a == b` guard, the
`X` arms, the listed redundancy pairs, and the `(a, _) => Some(*a)` fallback. -/
def AA.difference (a b : AA) : Option AA :=
  if a = b then none
  else
    match a, b with
    | _, .X => none
    | .X, _ => some .X
    | .B, .D => some .N
    | .B, .N => some .D
    | .D, .B => none
    | .N, .B => none
    | .J, .I => some .L
    | .J, .L => some .I
    | .I, .J => none
    | .L, .J => none
    | .Z, .E => some .Q
    | .Z, .Q => some .E
    | .E, .Z => none
    | .Q, .Z => none
    | a, _ => some a

/-- The codon tag alphabet (`enum CodonTag` in `alphabet/tags.rs`), 7 constructors in
declaration order. -/
inductive CodonTag
  | Start
  | Res
  | StartRes
  | Stop
  | StartStop
  | StopRes
  | Any
  deriving DecidableEq, Repr

instance : Fintype CodonTag :=
  Fintype.ofList [.Start, .Res, .StartRes, .Stop, .StartStop, .StopRes, .Any]
    (fun x => by cases x <;> decide)

/-- `RedundantAlphabet::union` for `CodonTag`: verbatim transcription of the match table
in `alphabet/tags.rs` (unlisted pairs fall through to `Any`). -/
def CodonTag.union : CodonTag → CodonTag → CodonTag
  | .Start, .Start => .Start
  | .Start, .Res => .StartRes
  | .Start, .StartRes => .StartRes
  | .Start, .Stop => .StartStop
  | .Start, .StartStop => .StartStop
  | .Res, .Start => .StartRes
  | .Res, .Res => .Res
  | .Res, .StartRes => .StartRes
  | .Res, .Stop => .StopRes
  | .Res, .StopRes => .StopRes
  | .StartRes, .Start => .StartRes
  | .StartRes, .Res => .Res
  | .StartRes, .StartRes => .StartRes
  | .Stop, .Start => .StartStop
  | .Stop, .Res => .StopRes
  | .Stop, .Stop => .Stop
  | .Stop, .StartStop => .StartStop
  | .Stop, .StopRes => .StopRes
  | .StartStop, .Start => .StartStop
  | .StartStop, .Stop => .StartStop
  | .StartStop, .StartStop => .StartStop
  | .StopRes, .Res => .StopRes
  | .StopRes, .Stop => .StopRes
  | .StopRes, .StopRes => .StopRes
  | _, _ => .Any

/-- `RedundantAlphabet::intersection` for `CodonTag`: verbatim transcription of the match
table in `alphabet/tags.rs`. -/
def CodonTag.intersection : CodonTag → CodonTag → Option CodonTag
  | .Start, .Start => some .Start
  | .Start, .Res => none
  | .Start, .StartRes => some .Start
  | .Start, .Stop => none
  | .Start, .StartStop => some .Start
  | .Start, .StopRes => none
  | .Start, .Any => some .Start
  | .Res, .Start => none
  | .Res, .Res => some .Res
  | .Res, .StartRes => some .Res
  | .Res, .Stop => none
  | .Res, .StartStop => none
  | .Res, .StopRes => some .Res
  | .Res, .Any => some .Res
  | .StartRes, .Start => some .Start
  | .StartRes, .Res => some .Res
  | .StartRes, .StartRes => some .StartRes
  | .StartRes, .Stop => none
  | .StartRes, .StartStop => some .Start
  | .StartRes, .StopRes => some .Res
  | .StartRes, .Any => some .StartRes
  | .Stop, .Start => none
  | .Stop, .Res => none
  | .Stop, .StartRes => none
  | .Stop, .Stop => some .Stop
  | .Stop, .StartStop => some .Stop
  | .Stop, .StopRes => some .Stop
  | .Stop, .Any => some .Stop
  | .StartStop, .Start => some .Start
  | .StartStop, .Res => none
  | .StartStop, .StartRes => some .Start
  | .StartStop, .Stop => some .Stop
  | .StartStop, .StartStop => some .StartRes
  | .StartStop, .StopRes => some .Stop
  | .StartStop, .Any => some .StartStop
  | .StopRes, .Start => none
  | .StopRes, .Res => some .Res
  | .StopRes, .StartRes => some .Res
  | .StopRes, .Stop => some .Stop
  | .StopRes, .StartStop => some .Stop
  | .StopRes, .StopRes => some .StopRes
  | .StopRes, .Any => some .StopRes
  | .Any, x => some x

/-- `Stopped<T>` from `stopped.rs`: an amino-acid alphabet extended with stops. -/
inductive Stopped (T : Type)
  | Res (t : T)
  | StopOr (t : T)
  | Stop
  deriving DecidableEq, Repr

/-- `Codon<T>` from `codon.rs`: an ordered triple of symbols. -/
structure Codon (T : Type) where
  first : T
  second : T
  third : T
  deriving DecidableEq, Repr

/-- `Codon::<T>::cardinality()` from `codon.rs`, with the alphabet cardinality passed
explicitly in place of the `T: Alphabet` bound: the code computes `3_u32.pow(size)`
where `size = T::cardinality()` (u32 overflow is not modelled; every value used here
is tiny). -/
def Codon.cardinalityWith (card : Nat) : Nat := 3 ^ card

/-- `Codon::<T>::rank()` from `codon.rs`, with the alphabet rank function and
cardinality passed explicitly in place of the `T: Alphabet` bound:
`rank(first) * size^2 + rank(second) * size + rank(third)`. -/
def Codon.rankWith {T : Type} (card : Nat) (rnk : T → Nat) (c : Codon T) : Nat :=
  rnk c.first * card ^ 2 + rnk c.second * card + rnk c.third

/-- `Codon::<T>::variants()` from `codon.rs`: the three nested `for` loops over
`T::variants()`, pushing `Codon(b1, b2, b3)` innermost-last. -/
def Codon.variantsWith {T : Type} (vs : List T) : List (Codon T) :=
  vs.flatMap fun b1 => vs.flatMap fun b2 => vs.map fun b3 => ⟨b1, b2, b3⟩
/-- Transcription of `CODONS_STANDARD` (64 entries, indexed by codon rank over DNA4). -/
def CODONS_STANDARD : List (Stopped AA) := [
  .Res .K, .Res .N, .Res .K, .Res .N, .Res .T, .Res .T, .Res .T, .Res .T,
  .Res .R, .Res .S, .Res .R, .Res .S, .Res .I, .Res .I, .Res .M, .Res .I,
  .Res .Q, .Res .H, .Res .Q, .Res .H, .Res .P, .Res .P, .Res .P, .Res .P,
  .Res .R, .Res .R, .Res .R, .Res .R, .Res .L, .Res .L, .Res .L, .Res .L,
  .Res .E, .Res .D, .Res .E, .Res .D, .Res .A, .Res .A, .Res .A, .Res .A,
  .Res .G, .Res .G, .Res .G, .Res .G, .Res .V, .Res .V, .Res .V, .Res .V,
  .Stop, .Res .Y, .Stop, .Res .Y, .Res .S, .Res .S, .Res .S, .Res .S,
  .Stop, .Res .C, .Res .W, .Res .C, .Res .L, .Res .F, .Res .L, .Res .F]

/-- Transcription of `CODONS_VERTEBRATE_MITO` (64 entries, indexed by codon rank over DNA4). -/
def CODONS_VERTEBRATE_MITO : List (Stopped AA) := [
  .Res .K, .Res .N, .Res .K, .Res .N, .Res .T, .Res .T, .Res .T, .Res .T,
  .Stop, .Res .S, .Stop, .Res .S, .Res .M, .Res .I, .Res .M, .Res .I,
  .Res .Q, .Res .H, .Res .Q, .Res .H, .Res .P, .Res .P, .Res .P, .Res .P,
  .Res .R, .Res .R, .Res .R, .Res .R, .Res .L, .Res .L, .Res .L, .Res .L,
  .Res .E, .Res .D, .Res .E, .Res .D, .Res .A, .Res .A, .Res .A, .Res .A,
  .Res .G, .Res .G, .Res .G, .Res .G, .Res .V, .Res .V, .Res .V, .Res .V,
  .Stop, .Res .Y, .Stop, .Res .Y, .Res .S, .Res .S, .Res .S, .Res .S,
  .Res .W, .Res .C, .Res .W, .Res .C, .Res .L, .Res .F, .Res .L, .Res .F]

/-- Transcription of `TAGS_STANDARD` (64 entries, indexed by codon rank over DNA4). -/
def TAGS_STANDARD : List CodonTag := [
  .Res, .Res, .Res, .Res, .Res, .Res, .Res, .Res,
  .Res, .Res, .Res, .Res, .Res, .Res, .Start, .Res,
  .Res, .Res, .Res, .Res, .Res, .Res, .Res, .Res,
  .Res, .Res, .Res, .Res, .Res, .Res, .Start, .Res,
  .Res, .Res, .Res, .Res, .Res, .Res, .Res, .Res,
  .Res, .Res, .Res, .Res, .Res, .Res, .Res, .Res,
  .Stop, .Res, .Stop, .Res, .Res, .Res, .Res, .Res,
  .Stop, .Res, .Res, .Res, .Res, .Res, .Start, .Res]
/-- The error kinds of `errors.rs` that the embedded operations can raise. -/
inductive SeqErrKind
  | AlphabetReadError (base : Char)
  | CodonFromStrTooShort
  | RedundantAlphabetConversionError (base : Char)
  deriving DecidableEq, Repr

/-- Model of `u8::count_ones`: how many of the 8 bits are set. -/
def u8CountOnes (n : Nat) : Nat :=
  ((List.range 8).filter (fun i => n.testBit i)).length

/-- Model of `u8::trailing_zeros`: the index of the least significant set bit,
8 when no bit is set. -/
def u8TrailingZeros (n : Nat) : Nat :=
  (((List.range 8).filter (fun i => n.testBit i)).headD 8)

/-- Model of the `transmute::<u8, DNA4>` used by `TryFrom<&DNA> for DNA4`: the inverse
of the `DNA4` discriminants. The source only ever invokes it with 0..3 (the
trailing-zero count of a single-bit mask); other inputs are unreachable there. -/
def DNA4.ofDiscr : Nat → DNA4
  | 0 => .A
  | 1 => .C
  | 2 => .G
  | _ => .T

/-- `impl TryFrom<&DNA> for DNA4` from `alphabet/dna4.rs`: error when the 4-bit mask has
more than one bit set, otherwise transmute the trailing-zero count. -/
def DNA4.tryFromDNA (base : DNA) : Except SeqErrKind DNA4 :=
  let a := base.bits
  if 1 < u8CountOnes a then
    .error (.RedundantAlphabetConversionError base.toChar)
  else
    .ok (DNA4.ofDiscr (u8TrailingZeros a))

/-- Rank of a `Codon DNA4` as used to index the 64-entry tables: `Codon::rank` at
`T = DNA4` (`size = DNA4::cardinality() = 4`). -/
def dna4CodonRank (c : Codon DNA4) : Nat :=
  Codon.rankWith DNA4.cardinality DNA4.rank c

/-- `TranslationTable::get` for `NCBITransTable::Standard` (`translate/dna4_aa.rs`):
index `CODONS_STANDARD` by the codon's rank. The rank of a `Codon DNA4` is provably
below 64, so the `getD` default is never reached (the source indexing would panic
out of range instead). -/
def translateStandard (c : Codon DNA4) : Stopped AA :=
  CODONS_STANDARD.getD (dna4CodonRank c) .Stop

/-- `TranslationTable::get` for `NCBITransTable::VertebrateMito`
(`translate/dna4_aa.rs`): index `CODONS_VERTEBRATE_MITO` by the codon's rank. -/
def translateVertebrateMito (c : Codon DNA4) : Stopped AA :=
  CODONS_VERTEBRATE_MITO.getD (dna4CodonRank c) .Stop

/-- `CodonTagTable::get_tag` for `NCBITransTable::Standard` (`translate/dna4_aa.rs`):
index `TAGS_STANDARD` by the codon's rank. -/
def tagStandard (c : Codon DNA4) : CodonTag :=
  TAGS_STANDARD.getD (dna4CodonRank c) .Res

/-- Forward consumption of the `Codons` iterator adapter (`codon.rs`): `next` pulls
three elements and wraps them, returning `None` when fewer than three remain; this is
the list of all codons `next` ever yields. -/
def codonsList {T : Type} : List T → List (Codon T)
  | a :: b :: c :: rest => ⟨a, b, c⟩ :: codonsList rest
  | _ => []

/-- One `next_back` step of the `Codons` iterator adapter (`codon.rs`): discard the
trailing `len % 3` elements, then pull `three`, `two`, `one` from the back, yielding
`Codon(one, two, three)` and the remaining front of the stream. -/
def codonsNextBack {T : Type} (l : List T) : Option (Codon T × List T) :=
  match (l.take (l.length - l.length % 3)).reverse with
  | three :: two :: one :: restRev => some (⟨one, two, three⟩, restRev.reverse)
  | _ => none

theorem codonsNextBack_some_length {T : Type} {l rest : List T} {c : Codon T}
    (h : codonsNextBack l = some (c, rest)) : rest.length < l.length := by
  unfold codonsNextBack at h
  split at h
  case h_1 three two one restRev heq =>
    have hlen : (l.take (l.length - l.length % 3)).length = restRev.length + 3 := by
      have h2 := congrArg List.length heq
      simp only [List.length_reverse, List.length_cons] at h2
      omega
    have htake : (l.take (l.length - l.length % 3)).length ≤ l.length :=
      List.length_take_le' _ l
    have hr : rest = restRev.reverse := by
      injection h with h1
      exact (congrArg Prod.snd h1).symm
    subst hr
    simp only [List.length_reverse]
    omega
  case h_2 => exact absurd h (by simp)

/-- Full backward consumption of the `Codons` iterator adapter: the list of all codons
`next_back` yields, in the order it yields them. -/
def codonsBackList {T : Type} (l : List T) : List (Codon T) :=
  match h : codonsNextBack l with
  | some (c, rest) => c :: codonsBackList rest
  | none => []
termination_by l.length
decreasing_by exact codonsNextBack_some_length h
theorem codonsList_short {T : Type} : (l : List T) → l.length < 3 → codonsList l = []
  | [], _ => rfl
  | [_], _ => rfl
  | [_, _], _ => rfl
  | _ :: _ :: _ :: _, h => by simp at h; omega

theorem codonsList_take {T : Type} :
    (l : List T) → codonsList (l.take (l.length - l.length % 3)) = codonsList l
  | [] => rfl
  | [_] => rfl
  | [_, _] => rfl
  | a :: b :: c :: rest => by
    have ih := codonsList_take rest
    have h3 : (rest.length + 1 + 1 + 1) - (rest.length + 1 + 1 + 1) % 3 =
        (rest.length - rest.length % 3) + 3 := by omega
    simp only [List.length_cons, h3]
    show codonsList (a :: b :: c :: rest.take (rest.length - rest.length % 3)) =
      codonsList (a :: b :: c :: rest)
    simp only [codonsList, ih]

theorem codonsList_append {T : Type} :
    (l1 l2 : List T) → l1.length % 3 = 0 →
      codonsList (l1 ++ l2) = codonsList l1 ++ codonsList l2
  | [], _, _ => by simp [codonsList]
  | [_], _, h => by simp at h
  | [_, _], _, h => by simp at h
  | a :: b :: c :: rest, l2, h => by
    have hr : rest.length % 3 = 0 := by simp at h; omega
    simp only [List.cons_append, codonsList, List.append_eq]
    rw [codonsList_append rest l2 hr]

theorem codonsNextBack_some_decomp {T : Type} {l rest : List T} {c : Codon T}
    (h : codonsNextBack l = some (c, rest)) :
    l.take (l.length - l.length % 3) = rest ++ [c.first, c.second, c.third] ∧
      rest.length % 3 = 0 := by
  unfold codonsNextBack at h
  split at h
  case h_1 three two one restRev heq =>
    obtain ⟨hc, hrest⟩ : (⟨one, two, three⟩ : Codon T) = c ∧ restRev.reverse = rest := by
      injection h with h1
      exact ⟨congrArg Prod.fst h1, congrArg Prod.snd h1⟩
    have hk : l.take (l.length - l.length % 3) = restRev.reverse ++ [one, two, three] := by
      have := congrArg List.reverse heq
      simpa using this
    have hlen : (l.take (l.length - l.length % 3)).length = restRev.length + 3 := by
      rw [hk]; simp
    have hmin : (l.take (l.length - l.length % 3)).length =
        min (l.length - l.length % 3) l.length := List.length_take _ _
    constructor
    · rw [hk, hrest.symm, hc.symm]
    · have : restRev.length + 3 = l.length - l.length % 3 := by omega
      rw [← hrest]
      simp only [List.length_reverse]
      omega
  case h_2 => exact absurd h (by simp)

theorem codonsNextBack_none_short {T : Type} {l : List T}
    (h : codonsNextBack l = none) : l.length < 3 := by
  unfold codonsNextBack at h
  split at h
  case h_1 => exact absurd h (by simp)
  case h_2 heq =>
    rcases hk : (l.take (l.length - l.length % 3)).reverse with _ | ⟨x, _ | ⟨y, _ | ⟨z, r⟩⟩⟩
    case cons.cons.cons => exact absurd (heq x y z r) (by rw [hk]; simp)
    all_goals
      have hlen := congrArg List.length hk
      have hmin : (l.take (l.length - l.length % 3)).length =
          min (l.length - l.length % 3) l.length := List.length_take _ _
      simp only [List.length_reverse] at hlen
      simp at hlen hmin
      omega

theorem codonsBackList_eq_reverse {T : Type} :
    (l : List T) → codonsBackList l = (codonsList l).reverse := fun l => by
  rw [codonsBackList.eq_def]
  split
  case h_1 c rest h =>
    have hlt := codonsNextBack_some_length h
    obtain ⟨hdec, hmod⟩ := codonsNextBack_some_decomp h
    have ih := codonsBackList_eq_reverse rest
    have hl : codonsList l = codonsList rest ++ [c] := by
      rw [← codonsList_take l, hdec, codonsList_append rest _ hmod]
      rfl
    rw [ih, hl]
    simp
  case h_2 h =>
    have := codonsNextBack_none_short h
    rw [codonsList_short l this]
    rfl
termination_by l => l.length
decreasing_by exact hlt
theorem range_flatMap_mul (m C : Nat) :
    (List.range m).flatMap (fun i => (List.range C).map (fun j => i * C + j)) =
      List.range (m * C) := by
  induction m with
  | zero => simp
  | succ m ih =>
    rw [List.range_succ, List.flatMap_append, ih, Nat.succ_mul, List.range_add]
    simp

theorem variantsWith_map_rank {T : Type} (C : Nat) (rnk : T → Nat) (vs : List T)
    (hv : vs.map rnk = List.range C) :
    (Codon.variantsWith vs).map (Codon.rankWith C rnk) = List.range (C ^ 3) := by
  unfold Codon.variantsWith Codon.rankWith
  rw [List.map_flatMap]
  have step1 :
      vs.flatMap (fun b1 =>
          (vs.flatMap fun b2 => vs.map fun b3 => (⟨b1, b2, b3⟩ : Codon T)).map
            (fun c => rnk c.first * C ^ 2 + rnk c.second * C + rnk c.third)) =
        vs.flatMap (fun b1 => vs.flatMap (fun b2 =>
          vs.map (fun b3 => rnk b1 * C ^ 2 + rnk b2 * C + rnk b3))) := by
    simp only [List.map_flatMap, List.map_map]
    rfl
  rw [step1]
  have inner : ∀ b1 b2 : T,
      vs.map (fun b3 => rnk b1 * C ^ 2 + rnk b2 * C + rnk b3) =
        (List.range C).map (fun k => rnk b1 * C ^ 2 + rnk b2 * C + k) := by
    intro b1 b2
    rw [← hv, List.map_map]
    rfl
  simp only [inner]
  have middle : ∀ b1 : T,
      vs.flatMap (fun b2 =>
          (List.range C).map (fun k => rnk b1 * C ^ 2 + rnk b2 * C + k)) =
        (List.range C).flatMap (fun j =>
          (List.range C).map (fun k => rnk b1 * C ^ 2 + j * C + k)) := by
    intro b1
    rw [← hv, List.flatMap_map]
  simp only [middle]
  have outer :
      vs.flatMap (fun b1 => (List.range C).flatMap (fun j =>
          (List.range C).map (fun k => rnk b1 * C ^ 2 + j * C + k))) =
        (List.range C).flatMap (fun i => (List.range C).flatMap (fun j =>
          (List.range C).map (fun k => i * C ^ 2 + j * C + k))) := by
    rw [← hv, List.flatMap_map]
  rw [outer]
  have harith : ∀ i j k : Nat, i * C ^ 2 + j * C + k = (i * C + j) * C + k := by
    intro i j k; ring
  simp only [harith]
  have hsq : C ^ 3 = C * C * C := by ring
  rw [hsq, ← range_flatMap_mul (C * C) C, ← range_flatMap_mul C C,
    List.flatMap_assoc]
  simp only [List.flatMap_map]

theorem variantsWith_complete {T : Type} (vs : List T) (hall : ∀ t, t ∈ vs)
    (c : Codon T) : c ∈ Codon.variantsWith vs := by
  unfold Codon.variantsWith
  exact List.mem_flatMap.2 ⟨c.first, hall _,
    List.mem_flatMap.2 ⟨c.second, hall _, List.mem_map.2 ⟨c.third, hall _, rfl⟩⟩⟩
instance {e a : Type} [DecidableEq e] [DecidableEq a] : DecidableEq (Except e a) :=
  fun x y =>
    match x, y with
    | .error p, .error q =>
      if h : p = q then isTrue (by rw [h])
      else isFalse (fun hc => h (Except.error.inj hc))
    | .ok p, .ok q =>
      if h : p = q then isTrue (by rw [h])
      else isFalse (fun hc => h (Except.ok.inj hc))
    | .error _, .ok _ => isFalse (fun hc => Except.noConfusion hc)
    | .ok _, .error _ => isFalse (fun hc => Except.noConfusion hc)

/-- Lifting of `DNA.union` to `Option DNA`, reading `None` as the empty set
(∅ ∪ x = x), as claim C4 prescribes for stating the distributivity laws. -/
def optUnion (x y : Option DNA) : Option DNA :=
  match x, y with
  | none, b => b
  | a, none => a
  | some a, some b => some (DNA.union a b)

/-- The redundancy relation exactly as claim C6 words it: identity pairs, B↔D, B↔N,
Z↔E, Z↔Q, J↔I, J↔L, and the X-relations. -/
def aaClaimRelated (a b : AA) : Bool :=
  a == b || a == .X || b == .X ||
    ([(.B, .D), (.D, .B), (.B, .N), (.N, .B), (.Z, .E), (.E, .Z), (.Z, .Q), (.Q, .Z),
      (.J, .I), (.I, .J), (.J, .L), (.L, .J)] : List (AA × AA)).contains (a, b)

/-- The amended redundancy relation for claim C6: the relation the claim words, plus
the sibling pairs D↔N, E↔Q, I↔L (the pairs whose union the table resolves to the
redundant codes B, Z, J). -/
def aaRelated (a b : AA) : Bool :=
  aaClaimRelated a b ||
    ([(.D, .N), (.N, .D), (.E, .Q), (.Q, .E), (.I, .L), (.L, .I)] : List (AA × AA)).contains
      (a, b)

/-- Claim C1: with the Standard table, Codon(A,T,G) translates to Res(M) and is tagged
Start; Codon(T,A,A), Codon(T,A,G) and Codon(T,G,A) translate to Stop; Codon(A,G,A)
translates to Stop under VertebrateMito but to Res(R) under Standard. -/
theorem c1_translation_scenarios :
    translateStandard ⟨.A, .T, .G⟩ = .Res .M ∧
    tagStandard ⟨.A, .T, .G⟩ = .Start ∧
    translateStandard ⟨.T, .A, .A⟩ = .Stop ∧
    translateStandard ⟨.T, .A, .G⟩ = .Stop ∧
    translateStandard ⟨.T, .G, .A⟩ = .Stop ∧
    translateVertebrateMito ⟨.A, .G, .A⟩ = .Stop ∧
    translateStandard ⟨.A, .G, .A⟩ = .Res .R := by
  decide

/-- Claim C2 evaluated on the code: `Codon::cardinality` computes `3.pow(size)`, which
at the concrete 4-symbol alphabet is 81, while the cube of the alphabet cardinality is
64 — the number of codons `Codon::variants` actually produces. -/
theorem c2_cardinality_eval :
    Codon.cardinalityWith DNA4.cardinality = 81 ∧
    DNA4.cardinality ^ 3 = 64 ∧
    (Codon.variantsWith DNA4.variants).length = 64 := by
  decide

/-- Claim C3: for an alphabet whose variants list carries exactly the dense ranks
0..C-1 in order, the codon rank is the base-C expansion rank(first)·C² +
rank(second)·C + rank(third), is injective over all codons, is dense over [0, C³),
and `Codon::variants` enumerates codons so that the i-th codon has rank i. -/
theorem c3_codon_rank_generic {T : Type} (C : Nat) (rnk : T → Nat) (vs : List T)
    (hv : vs.map rnk = List.range C) (hall : ∀ t, t ∈ vs) :
    (∀ a b c : T, Codon.rankWith C rnk ⟨a, b, c⟩ = rnk a * C ^ 2 + rnk b * C + rnk c) ∧
    (∀ c1 c2 : Codon T, Codon.rankWith C rnk c1 = Codon.rankWith C rnk c2 → c1 = c2) ∧
    (∀ k, k < C ^ 3 → ∃ cd : Codon T, Codon.rankWith C rnk cd = k) ∧
    (∀ i, ∀ h : i < (Codon.variantsWith vs).length,
      Codon.rankWith C rnk ((Codon.variantsWith vs).get ⟨i, h⟩) = i) := by
  have hmap := variantsWith_map_rank C rnk vs hv
  refine ⟨fun a b c => rfl, ?_, ?_, ?_⟩
  · intro c1 c2 he
    have hnd : ((Codon.variantsWith vs).map (Codon.rankWith C rnk)).Nodup := by
      rw [hmap]; exact List.nodup_range _
    exact List.inj_on_of_nodup_map hnd (variantsWith_complete vs hall c1)
      (variantsWith_complete vs hall c2) he
  · intro k hk
    have hmem : k ∈ List.range (C ^ 3) := List.mem_range.2 hk
    rw [← hmap] at hmem
    obtain ⟨cd, _, hcd⟩ := List.mem_map.1 hmem
    exact ⟨cd, hcd⟩
  · intro i h
    have h2 : i < ((Codon.variantsWith vs).map (Codon.rankWith C rnk)).length := by
      simpa using h
    have e1 : ((Codon.variantsWith vs).map (Codon.rankWith C rnk)).get ⟨i, h2⟩ =
        Codon.rankWith C rnk ((Codon.variantsWith vs).get ⟨i, h⟩) := by
      simp
    have e2 : ((Codon.variantsWith vs).map (Codon.rankWith C rnk)).get ⟨i, h2⟩ = i := by
      simp [hmap]
    rw [← e1, e2]

/-- Witness for claim C3 at the concrete 4-symbol alphabet: rank 63 is attained. -/
theorem c3_codon_rank_generic_witness :
    ∃ cd : Codon DNA4, Codon.rankWith DNA4.cardinality DNA4.rank cd = 63 :=
  (c3_codon_rank_generic DNA4.cardinality DNA4.rank DNA4.variants (by decide)
    (fun t => by cases t <;> decide)).2.2.1 63 (by decide)

theorem dna_union_comm : ∀ a b : DNA, DNA.union a b = DNA.union b a := by decide

theorem dna_intersection_comm :
    ∀ a b : DNA, DNA.intersection a b = DNA.intersection b a := by decide

theorem dna_union_assoc :
    ∀ a b c : DNA, DNA.union (DNA.union a b) c = DNA.union a (DNA.union b c) := by decide

theorem dna_intersection_assoc :
    ∀ a b c : DNA,
      (DNA.intersection a b).bind (fun d => DNA.intersection d c) =
        (DNA.intersection b c).bind (fun d => DNA.intersection a d) := by decide

theorem dna_union_distrib :
    ∀ a b c : DNA,
      optUnion (some a) (DNA.intersection b c) =
        DNA.intersection (DNA.union a b) (DNA.union a c) := by decide

theorem dna_intersection_distrib :
    ∀ a b c : DNA,
      DNA.intersection a (DNA.union b c) =
        optUnion (DNA.intersection a b) (DNA.intersection a c) := by decide

theorem dna_difference_via_n :
    ∀ a b : DNA,
      DNA.difference a b =
        (DNA.difference DNA.N b).bind (fun d => DNA.intersection a d) := by decide

/-- Claim C4: over the 15 nucleotide symbols, union and intersection are commutative
and associative, mutually distribute over each other, and difference(a,b) equals
intersection(a, difference(N,b)), reading `None` as the empty set. -/
theorem c4_dna_set_algebra :
    (∀ a b : DNA, DNA.union a b = DNA.union b a) ∧
    (∀ a b : DNA, DNA.intersection a b = DNA.intersection b a) ∧
    (∀ a b c : DNA, DNA.union (DNA.union a b) c = DNA.union a (DNA.union b c)) ∧
    (∀ a b c : DNA,
      (DNA.intersection a b).bind (fun d => DNA.intersection d c) =
        (DNA.intersection b c).bind (fun d => DNA.intersection a d)) ∧
    (∀ a b c : DNA,
      optUnion (some a) (DNA.intersection b c) =
        DNA.intersection (DNA.union a b) (DNA.union a c)) ∧
    (∀ a b c : DNA,
      DNA.intersection a (DNA.union b c) =
        optUnion (DNA.intersection a b) (DNA.intersection a c)) ∧
    (∀ a b : DNA,
      DNA.difference a b = (DNA.difference DNA.N b).bind (fun d => DNA.intersection a d)) :=
  ⟨dna_union_comm, dna_intersection_comm, dna_union_assoc, dna_intersection_assoc,
    dna_union_distrib, dna_intersection_distrib, dna_difference_via_n⟩

/-- Claim C5 evaluated on the code: the `CodonTag` table is not commutative at
(StartRes, Res) — it returns Res one way and StartRes the other — and intersection is
not idempotent at StartStop, returning Some(StartRes); the remaining law parts
(intersection commutativity, union idempotence) do hold. -/
theorem c5_codon_tag_algebra_eval :
    CodonTag.union .StartRes .Res = .Res ∧
    CodonTag.union .Res .StartRes = .StartRes ∧
    CodonTag.intersection .StartStop .StartStop = some .StartRes ∧
    (∀ a b : CodonTag, CodonTag.intersection a b = CodonTag.intersection b a) ∧
    (∀ a : CodonTag, CodonTag.union a a = a) := by
  decide

/-- Counterexample to claim C6 as stated: (N,D) is not in the claim's redundancy
relation yet union(N,D) = B, not X; and (A,C) is not in the relation yet
difference(A,C) = Some(A), not None. -/
theorem c6_counterexample :
    aaClaimRelated AA.N AA.D = false ∧ AA.N ≠ AA.D ∧ AA.union AA.N AA.D ≠ AA.X ∧
    aaClaimRelated AA.A AA.C = false ∧ AA.A ≠ AA.C ∧ AA.difference AA.A AA.C ≠ none := by
  decide

/-- Claim C6 as amended: for every pair outside the redundancy relation — extended
with the sibling pairs D↔N, E↔Q, I↔L — union falls back to X, intersection to None,
and difference to Some of the left operand. -/
theorem c6_aa_fallback :
    ∀ a b : AA, aaRelated a b = false →
      AA.union a b = AA.X ∧ AA.intersection a b = none ∧ AA.difference a b = some a := by
  decide

/-- Witness for the amended claim C6 at the unrelated pair (A, C). -/
theorem c6_aa_fallback_witness :
    aaRelated AA.A AA.C = false ∧
      (AA.union AA.A AA.C = AA.X ∧ AA.intersection AA.A AA.C = none ∧
        AA.difference AA.A AA.C = some AA.A) :=
  ⟨by decide, c6_aa_fallback AA.A AA.C (by decide)⟩

/-- Claim C7: `matches` on the 15 nucleotide symbols is exactly bitmask overlap,
hence reflexive and commutative, and not transitive as witnessed by A/N/T. -/
theorem c7_matches_bitmask :
    (∀ a b : DNA, DNA.matches a b = true ↔ DNA.bits a &&& DNA.bits b ≠ 0) ∧
    (∀ a : DNA, DNA.matches a a = true) ∧
    (∀ a b : DNA, DNA.matches a b = DNA.matches b a) ∧
    (DNA.matches .A .N = true ∧ DNA.matches .N .T = true ∧ DNA.matches .A .T = false) :=
  ⟨by decide, by decide, by decide, by decide⟩

/-- Claim C8: nucleotide complement is an involution on all 15 symbols, and S and W
are each their own complement. -/
theorem c8_complement_involution :
    (∀ x : DNA, DNA.compl (DNA.compl x) = x) ∧
    DNA.compl .S = .S ∧ DNA.compl .W = .W := by
  decide

/-- Claim C9: narrowing a 15-symbol nucleotide to `DNA4` errors with
RedundantSymbolNotRepresentable exactly when the 4-bit mask has more than one bit
set, and maps each single-bit symbol to the matching concrete base. -/
theorem c9_dna4_narrowing :
    (∀ x : DNA,
      DNA4.tryFromDNA x = .error (.RedundantAlphabetConversionError x.toChar) ↔
        1 < u8CountOnes x.bits) ∧
    DNA4.tryFromDNA .A = .ok .A ∧ DNA4.tryFromDNA .C = .ok .C ∧
    DNA4.tryFromDNA .G = .ok .G ∧ DNA4.tryFromDNA .T = .ok .T := by
  decide

/-- Claim C10: consuming the codon-chunking iterator backwards yields exactly the
codons of forward iteration, in reverse order. -/
theorem c10_codons_reverse_iteration {T : Type} (l : List T) :
    codonsBackList l = (codonsList l).reverse :=
  codonsBackList_eq_reverse l

end Seqrs
